import Mathlib

/-!
# bouheki: the `lsm/socket_connect` program of `pkg/bpf/c/restricted-network.bpf.c`

A shallow embedding of the BPF program that decides, for every outbound
connection attempt, whether the attempt is allowed, and that reports audit
events.

* BPF maps are association lists; `bpf_map_lookup_elem` returns `some v` for a
  non-NULL pointer and `none` for NULL.
* The two `BPF_MAP_TYPE_LPM_TRIE` maps are lists of `(key, value)` nodes with
  the kernel's longest-prefix-match lookup.
* The ring buffer `audit_events` is the sequence of the records handed to
  `bpf_ringbuf_output`, oldest first.  Whether the kernel drops a record
  because the ring is full is outside the embedding.
* `int` values are `Int`; unsigned values are `Nat`, reduced modulo `2 ^ w`
  where the source casts or truncates.
* `common.h` is not part of the sources at hand.  Its enumerators are the
  fields of `Common`, a parameter of the program; the fields of its structs
  are taken from the way the program uses them.
-/

namespace Bouheki

/-! ## Constants of the kernel headers -/

/-- The value of `EPERM` in `linux/errno.h`. -/
def EPERM : Int := 1

/-- The value of `AF_INET` in the kernel headers. -/
def AF_INET : Nat := 2

/-- The enumerators of `common.h` that the program mentions: they are declared
outside the sources at hand, so the program is parameterised by their values. -/
structure Common where
  MODE_MONITOR : Nat
  MODE_BLOCK : Nat
  TARGET_CONTAINER : Nat
  ACTION_MONITOR : Nat
  ACTION_BLOCK : Nat
  CONNECT : Nat
  BLOCKED_IPV4 : Nat
deriving DecidableEq, Repr

/-! ## Data model -/

/-- The record `struct bouheki_config`, with the fields the program reads. -/
structure bouheki_config where
  mode : Nat
  target : Nat
  has_allow_command : Nat
  has_allow_uid : Nat
  has_allow_gid : Nat
deriving DecidableEq, Repr

/-- Key of `allowed_command_list`: the task name, as its bytes. -/
structure allowed_command_key where
  comm : List Nat
deriving DecidableEq, Repr

/-- Key of `denied_command_list`: the task name, as its bytes. -/
structure denied_command_key where
  comm : List Nat
deriving DecidableEq, Repr

/-- Key of `allowed_uid_list`. -/
structure allowed_uid_key where
  uid : Nat
deriving DecidableEq, Repr

/-- Key of `denied_uid_list`. -/
structure denied_uid_key where
  uid : Nat
deriving DecidableEq, Repr

/-- Key of `allowed_gid_list`. -/
structure allowed_gid_key where
  gid : Nat
deriving DecidableEq, Repr

/-- Key of `denied_gid_list`. -/
structure denied_gid_key where
  gid : Nat
deriving DecidableEq, Repr

/-- Key of the two LPM tries: a prefix length and an IPv4 address.  The
address is the number whose big-endian bytes are the four bytes of
`struct in_addr` in memory order, so that bit `31 - i` of `addr` is the
`i`-th bit of the address as the trie reads it. -/
structure ipv4_trie_key where
  prefixlen : Nat
  addr : Nat
deriving DecidableEq, Repr

/-- The header `ev.hdr` of an audit event. -/
structure audit_event_header where
  cgroup : Nat
  pid : Nat
  type : Nat
  nodename : List Nat
  task : List Nat
  parent_task : List Nat
deriving DecidableEq, Repr

/-- The record `struct audit_event_ipv4`. -/
structure audit_event_ipv4 where
  hdr : audit_event_header
  dport : Nat
  src : Nat
  dst : Nat
  operation : Nat
  action : Nat
  sock_type : Nat
deriving DecidableEq, Repr

/-- The maps of the program: the ring buffer, the configuration map, the six
hash maps and the two LPM tries. -/
structure Maps where
  audit_events : List audit_event_ipv4
  bouheki_config : List (Nat × bouheki_config)
  allowed_command_list : List (allowed_command_key × Nat)
  denied_command_list : List (denied_command_key × Nat)
  allowed_uid_list : List (allowed_uid_key × Nat)
  denied_uid_list : List (denied_uid_key × Nat)
  allowed_gid_list : List (allowed_gid_key × Nat)
  denied_gid_list : List (denied_gid_key × Nat)
  denied_cidr_list : List (ipv4_trie_key × Nat)
  allowed_cidr_list : List (ipv4_trie_key × Nat)
deriving DecidableEq, Repr

/-- What one invocation of the hook reads from its arguments and from the
current task: the destination `struct sockaddr_in`, the socket, and the
results of the BPF helpers and of `is_container()` and `src_addr4(sock)`. -/
structure Attempt where
  sa_family : Nat
  sin_port : Nat
  sin_addr : Nat
  sock_type : Nat
  src_addr4 : Nat
  current_cgroup_id : Nat
  current_pid_tgid : Nat
  current_uid_gid : Nat
  current_comm : List Nat
  parent_comm : List Nat
  nodename : List Nat
  is_container : Bool
deriving DecidableEq, Repr

/-! ## BPF helpers -/

/-- Lookup in a hash map: the value stored under `key`, if any. -/
def bpf_map_lookup_elem {κ ν : Type} [DecidableEq κ] (map : List (κ × ν)) (key : κ) :
    Option ν :=
  (map.find? (fun e => decide (e.1 = key))).map Prod.snd

/-- A trie node matches a lookup key when the node's prefix is no longer than
the key's and the first `node.prefixlen` bits of both addresses agree. -/
def lpm_match (node key : ipv4_trie_key) : Bool :=
  decide (node.prefixlen ≤ key.prefixlen) && decide (node.prefixlen ≤ 32) &&
    decide (node.addr % 2 ^ 32 / 2 ^ (32 - node.prefixlen)
      = key.addr % 2 ^ 32 / 2 ^ (32 - node.prefixlen))

/-- The matching node with the longest prefix. -/
def lpm_longest : List (ipv4_trie_key × Nat) → ipv4_trie_key → Option (ipv4_trie_key × Nat)
  | [], _ => none
  | e :: rest, key =>
    match lpm_longest rest key with
    | none => if lpm_match e.1 key then some e else none
    | some b =>
      if lpm_match e.1 key && decide (b.1.prefixlen < e.1.prefixlen) then some e else some b

/-- Lookup in an LPM trie over 4-byte data: the value of the longest matching
prefix; a key longer than 32 bits finds nothing. -/
def lpm_trie_lookup (trie : List (ipv4_trie_key × Nat)) (key : ipv4_trie_key) : Option Nat :=
  if 32 < key.prefixlen then none else (lpm_longest trie key).map Prod.snd

/-- The builtin `__builtin_bswap16` on a 16-bit value. -/
def bswap16 (x : Nat) : Nat :=
  ((((x % 2 ^ 16) &&& 0xff) <<< 8) ||| ((x % 2 ^ 16) >>> 8)) % 2 ^ 16

/-- Append one record to the ring buffer, as `bpf_ringbuf_output` does. -/
def bpf_ringbuf_output (ring : List audit_event_ipv4) (ev : audit_event_ipv4) :
    List audit_event_ipv4 :=
  ring ++ [ev]

/-! ## The program -/

/-- The event that `report_ipv4_event` builds (lines 42-68). -/
def report_ipv4_event_ev (K : Common) (x : Attempt) (cg action point : Nat) :
    audit_event_ipv4 :=
  { hdr :=
      { cgroup := cg % 2 ^ 64
        pid := ((x.current_pid_tgid % 2 ^ 64) >>> 32) % 2 ^ 32
        type := K.BLOCKED_IPV4
        nodename := x.nodename
        task := x.current_comm
        parent_task := x.parent_comm }
    dport := bswap16 x.sin_port
    src := x.src_addr4
    dst := x.sin_addr
    operation := point % 2 ^ 8
    action := action % 2 ^ 8
    sock_type := x.sock_type % 2 ^ 8 }

/-- The function `report_ipv4_event` (lines 40-71): build the event and hand it
to the ring buffer. -/
def report_ipv4_event (K : Common) (m : Maps) (x : Attempt) (cg action point : Nat) : Maps :=
  { m with audit_events := bpf_ringbuf_output m.audit_events (report_ipv4_event_ev K x cg action point) }

/-- The function `is_destination_port_zero` (lines 75-78). -/
def is_destination_port_zero (sin_port : Nat) : Bool :=
  bswap16 sin_port == 0

/-- The lookup key of both tries (lines 102-104). -/
def key (x : Attempt) : ipv4_trie_key :=
  { prefixlen := 32, addr := x.sin_addr }

/-- The key `allowed_uid` and `denied_uid` hold (lines 116-117). -/
def current_uid (x : Attempt) : Nat :=
  ((x.current_uid_gid % 2 ^ 64) &&& 0xffffffff) % 2 ^ 32

/-- The key `allowed_gid` and `denied_gid` hold (lines 118-119). -/
def current_gid (x : Attempt) : Nat :=
  ((x.current_uid_gid % 2 ^ 64) >>> 32) % 2 ^ 32

/-- The pointer `c` (lines 121-123): the configuration under index 0. -/
def config (m : Maps) : Option bouheki_config :=
  bpf_map_lookup_elem m.bouheki_config 0

/-- The local `has_allow_command` after lines 126 and 130-133. -/
def has_allow_command (c : Option bouheki_config) : Nat :=
  match c with
  | some c => if c.has_allow_command ≠ 0 then c.has_allow_command else 0
  | none => 0

/-- The local `has_allow_uid` after lines 127 and 134-137. -/
def has_allow_uid (c : Option bouheki_config) : Nat :=
  match c with
  | some c => if c.has_allow_uid ≠ 0 then c.has_allow_uid else 0
  | none => 0

/-- The local `has_allow_gid` (line 128): no later line assigns it. -/
def has_allow_gid (_c : Option bouheki_config) : Nat :=
  0

/-- The test `c && c->mode == mode` of lines 208 and 213. -/
def mode_is (c : Option bouheki_config) (mode : Nat) : Bool :=
  match c with
  | some c => decide (c.mode = mode)
  | none => false

/-- The test of lines 139-141: the configuration targets containers and the
current task is not in one. -/
def outside_target (K : Common) (m : Maps) (x : Attempt) : Bool :=
  match config m with
  | some c => decide (c.target = K.TARGET_CONTAINER) && !x.is_container
  | none => false

/-- The test `bpf_map_lookup_elem(&allowed_cidr_list, &key)` (line 147). -/
def cidr_allowed (m : Maps) (x : Attempt) : Bool :=
  (lpm_trie_lookup m.allowed_cidr_list (key x)).isSome

/-- The test `bpf_map_lookup_elem(&denied_cidr_list, &key)` (lines 182-197). -/
def cidr_denied (m : Maps) (x : Attempt) : Bool :=
  (lpm_trie_lookup m.denied_cidr_list (key x)).isSome

/-- The test `bpf_map_lookup_elem(&allowed_uid_list, &allowed_uid)`
(lines 152 and 192). -/
def uid_allowed (m : Maps) (x : Attempt) : Bool :=
  (bpf_map_lookup_elem m.allowed_uid_list { uid := current_uid x }).isSome

/-- The test `bpf_map_lookup_elem(&allowed_gid_list, &allowed_gid)`
(lines 157 and 197). -/
def gid_allowed (m : Maps) (x : Attempt) : Bool :=
  (bpf_map_lookup_elem m.allowed_gid_list { gid := current_gid x }).isSome

/-- The test `bpf_map_lookup_elem(&allowed_command_list, &allowed_command)`
(lines 162 and 187). -/
def command_allowed (m : Maps) (x : Attempt) : Bool :=
  (bpf_map_lookup_elem m.allowed_command_list { comm := x.current_comm }).isSome

/-- The test `bpf_map_lookup_elem(&denied_command_list, &denied_command)`
(line 167). -/
def command_denied (m : Maps) (x : Attempt) : Bool :=
  (bpf_map_lookup_elem m.denied_command_list { comm := x.current_comm }).isSome

/-- The test `bpf_map_lookup_elem(&denied_uid_list, &denied_uid)` (line 172). -/
def uid_denied (m : Maps) (x : Attempt) : Bool :=
  (bpf_map_lookup_elem m.denied_uid_list { uid := current_uid x }).isSome

/-- The test `bpf_map_lookup_elem(&denied_gid_list, &denied_gid)` (line 177). -/
def gid_denied (m : Maps) (x : Attempt) : Bool :=
  (bpf_map_lookup_elem m.denied_gid_list { gid := current_gid x }).isSome

/-- The local `allow_connect` after lines 84 and 147-150. -/
def allow_connect_0 (m : Maps) (x : Attempt) : Int :=
  if cidr_allowed m x then 0 else -EPERM

/-- The local `allow_uid` after lines 86 and 152-155. -/
def allow_uid_0 (m : Maps) (x : Attempt) : Int :=
  if uid_allowed m x || has_allow_uid (config m) == 0 then 0 else -EPERM

/-- The local `allow_gid` after lines 87 and 157-160. -/
def allow_gid_0 (m : Maps) (x : Attempt) : Int :=
  if gid_allowed m x || has_allow_gid (config m) == 0 then 0 else -EPERM

/-- The local `allow_command` after lines 85 and 162-165. -/
def allow_command_0 (m : Maps) (x : Attempt) : Int :=
  if command_allowed m x || has_allow_command (config m) == 0 then 0 else -EPERM

/-- The local `allow_command` after lines 167-170. -/
def allow_command (m : Maps) (x : Attempt) : Int :=
  if command_denied m x then -EPERM else allow_command_0 m x

/-- The local `allow_uid` after lines 172-175. -/
def allow_uid (m : Maps) (x : Attempt) : Int :=
  if uid_denied m x then -EPERM else allow_uid_0 m x

/-- The local `allow_gid` after lines 177-180. -/
def allow_gid (m : Maps) (x : Attempt) : Int :=
  if gid_denied m x then -EPERM else allow_gid_0 m x

/-- The local `allow_connect` after lines 182-200: a match in the denied trie
resets it (lines 182-185), then each of the three allow-list lookups sets it
back to 0 (lines 187-200). -/
def allow_connect (m : Maps) (x : Attempt) : Int :=
  let a1 : Int := if cidr_denied m x then -EPERM else allow_connect_0 m x
  let a2 : Int := if cidr_denied m x && command_allowed m x then 0 else a1
  let a3 : Int := if cidr_denied m x && uid_allowed m x then 0 else a2
  if cidr_denied m x && gid_allowed m x then 0 else a3

/-- The local `can_access` after lines 202-206. -/
def can_access (m : Maps) (x : Attempt) : Int :=
  if allow_connect m x = 0 ∧ allow_uid m x = 0 ∧ allow_gid m x = 0 ∧ allow_command m x = 0
  then 0 else -EPERM

/-- The program `socket_connect` (lines 82-220): the returned value and the
maps after the call. -/
def socket_connect (K : Common) (m : Maps) (x : Attempt) : Int × Maps :=
  if x.sa_family ≠ AF_INET then (0, m)
  else
    let cg := x.current_cgroup_id
    if is_destination_port_zero x.sin_port then (0, m)
    else
      let c := config m
      if outside_target K m x then (0, m)
      else
        let m1 : Maps :=
          if can_access m x ≠ 0 ∧ mode_is c K.MODE_BLOCK
          then report_ipv4_event K m x cg K.ACTION_BLOCK K.CONNECT
          else m
        if mode_is c K.MODE_MONITOR
        then (0, report_ipv4_event K m1 x cg K.ACTION_MONITOR K.CONNECT)
        else (can_access m x, m1)

/-- The attempt gets past the three early returns (lines 90-91, 97-100 and
139-145) and is evaluated against the policy maps. -/
def reaches_evaluation (K : Common) (m : Maps) (x : Attempt) : Bool :=
  decide (x.sa_family = AF_INET) && !is_destination_port_zero x.sin_port && !outside_target K m x

/-- The first `len` bits of the addresses `a` and `d` are equal, the first bit
being the most significant of the 32: what it means for a destination `d` to
lie in the prefix `a/len`. -/
def first_bits_equal (len a d : Nat) : Prop :=
  ∀ i, i < len → a.testBit (31 - i) = d.testBit (31 - i)

instance (len a d : Nat) : Decidable (first_bits_equal len a d) :=
  inferInstanceAs (Decidable (∀ i, i < len → a.testBit (31 - i) = d.testBit (31 - i)))

/-! ## Concrete inputs -/

/-- Enumerator values for the concrete inputs below. -/
def sampleCommon : Common :=
  { MODE_MONITOR := 0, MODE_BLOCK := 1, TARGET_CONTAINER := 1,
    ACTION_MONITOR := 0, ACTION_BLOCK := 1, CONNECT := 0, BLOCKED_IPV4 := 0 }

/-- A configuration in blocking mode, for all processes, no allow-list active. -/
def blockConfig : bouheki_config :=
  { mode := 1, target := 0, has_allow_command := 0, has_allow_uid := 0, has_allow_gid := 0 }

/-- Maps with no entry at all. -/
def emptyMaps : Maps :=
  { audit_events := [], bouheki_config := [], allowed_command_list := [],
    denied_command_list := [], allowed_uid_list := [], denied_uid_list := [],
    allowed_gid_list := [], denied_gid_list := [], denied_cidr_list := [],
    allowed_cidr_list := [] }

/-- Maps with the blocking configuration and the prefix 10.0.0.0/24 allowed
(stored with host bits set: 10.0.0.77). -/
def blockMaps : Maps :=
  { emptyMaps with
    bouheki_config := [(0, blockConfig)]
    allowed_cidr_list := [({ prefixlen := 24, addr := 0x0a00004d }, 1)] }

/-- As `blockMaps`, with the prefix 10.0.0.0/8 denied. -/
def deniedCidrMaps : Maps :=
  { blockMaps with denied_cidr_list := [({ prefixlen := 8, addr := 0x0a000000 }, 1)] }

/-- As `blockMaps`, with uid 1000 denied and allowed at once. -/
def deniedUidMaps : Maps :=
  { blockMaps with
    denied_uid_list := [({ uid := 1000 }, 1)]
    allowed_uid_list := [({ uid := 1000 }, 1)] }

/-- As `blockMaps`, with the uid allow-list active and holding uid 0 only. -/
def allowUidMaps : Maps :=
  { blockMaps with
    bouheki_config := [(0, { blockConfig with has_allow_uid := 1 })]
    allowed_uid_list := [({ uid := 0 }, 1)] }

/-- As `blockMaps`, with the gid allow-list active and holding gid 0 only. -/
def allowGidMaps : Maps :=
  { blockMaps with
    bouheki_config := [(0, { blockConfig with has_allow_gid := 1 })]
    allowed_gid_list := [({ gid := 0 }, 1)] }

/-- As `blockMaps`, in monitoring mode. -/
def monitorMaps : Maps :=
  { blockMaps with bouheki_config := [(0, { blockConfig with mode := 0 })] }

/-- As `blockMaps`, without a configuration. -/
def noConfigMaps : Maps :=
  { blockMaps with bouheki_config := [] }

/-- The task name `curl`. -/
def curl : List Nat := [99, 117, 114, 108]

/-- An IPv4 attempt of uid 1000, gid 100, command `curl`, to 10.0.0.5 port 80
(`sin_port` holds the bytes 00 50, read as a little-endian number). -/
def sampleAttempt : Attempt :=
  { sa_family := 2, sin_port := 0x5000, sin_addr := 0x0a000005, sock_type := 1,
    src_addr4 := 0xc0a80002, current_cgroup_id := 7, current_pid_tgid := 4242 * 2 ^ 32 + 4243,
    current_uid_gid := 100 * 2 ^ 32 + 1000, current_comm := curl, parent_comm := [115, 104],
    nodename := [104], is_container := false }

/-- As `monitorMaps`, with the configuration targeting containers only and no
prefix allowed. -/
def containerMaps : Maps :=
  { emptyMaps with
    bouheki_config := [(0, { blockConfig with mode := 0, target := 1 })] }

/-- As `deniedCidrMaps`, with the command `curl` allowed. -/
def overrideMaps : Maps :=
  { deniedCidrMaps with allowed_command_list := [({ comm := [99, 117, 114, 108] }, 1)] }

/-- As `overrideMaps`, with uid 1000 denied. -/
def overrideDeniedUidMaps : Maps :=
  { overrideMaps with denied_uid_list := [({ uid := 1000 }, 1)] }

/-- As `blockMaps`, with the command `curl` denied. -/
def deniedCommandMaps : Maps :=
  { blockMaps with denied_command_list := [({ comm := [99, 117, 114, 108] }, 1)] }

/-- The prefix 10.0.0.0/8 denied and the more specific prefix 10.0.0.0/24
allowed, with the blocking configuration. -/
def precedenceMaps : Maps :=
  { emptyMaps with
    bouheki_config := [(0, blockConfig)]
    denied_cidr_list := [({ prefixlen := 8, addr := 0x0a000000 }, 1)]
    allowed_cidr_list := [({ prefixlen := 24, addr := 0x0a000000 }, 1)] }

/-- An attempt that agrees with `sampleAttempt` on the address family, the
destination address, the uid, the gid, the command and the container status,
and differs in the port (443), the source address, the socket type, the cgroup,
the pid, the host name and the parent command. -/
def otherAttempt : Attempt :=
  { sa_family := 2, sin_port := 0xbb01, sin_addr := 0x0a000005, sock_type := 2,
    src_addr4 := 0xc0a80063, current_cgroup_id := 9, current_pid_tgid := 77 * 2 ^ 32 + 78,
    current_uid_gid := 100 * 2 ^ 32 + 1000, current_comm := [99, 117, 114, 108],
    parent_comm := [122, 115, 104], nodename := [110, 50], is_container := false }

/-- The blocking configuration, uid 1000 in `allowed_uid_list`, and nothing
else: no prefix allowed or denied, no allow-list active, no identity denied. -/
def allowedUidOnlyMaps : Maps :=
  { emptyMaps with
    bouheki_config := [(0, blockConfig)]
    allowed_uid_list := [({ uid := 1000 }, 1)] }

/-- A configuration whose mode is neither of the two enumerators of
`sampleCommon`, with the prefix 10.0.0.0/24 allowed. -/
def otherModeMaps : Maps :=
  { blockMaps with bouheki_config := [(0, { blockConfig with mode := 7 })] }

/-- Two states of the maps hold the same configuration and the same eight
policy maps; their ring buffers may differ. -/
def same_snapshot (m1 m2 : Maps) : Prop :=
  m1.bouheki_config = m2.bouheki_config ∧
  m1.allowed_command_list = m2.allowed_command_list ∧
  m1.denied_command_list = m2.denied_command_list ∧
  m1.allowed_uid_list = m2.allowed_uid_list ∧
  m1.denied_uid_list = m2.denied_uid_list ∧
  m1.allowed_gid_list = m2.allowed_gid_list ∧
  m1.denied_gid_list = m2.denied_gid_list ∧
  m1.denied_cidr_list = m2.denied_cidr_list ∧
  m1.allowed_cidr_list = m2.allowed_cidr_list

/-- As `deniedCidrMaps`, with uid 1000 allowed. -/
def overrideUidMaps : Maps :=
  { deniedCidrMaps with allowed_uid_list := [({ uid := 1000 }, 1)] }

/-- As `deniedCidrMaps`, with gid 100 allowed. -/
def overrideGidMaps : Maps :=
  { deniedCidrMaps with allowed_gid_list := [({ gid := 100 }, 1)] }

/-- As `blockMaps`, with gid 100 denied and allowed at once. -/
def deniedGidMaps : Maps :=
  { blockMaps with
    denied_gid_list := [({ gid := 100 }, 1)]
    allowed_gid_list := [({ gid := 100 }, 1)] }

/-- As `blockMaps`, with the uid allow-list active and holding uid 1000. -/
def allowUidHitMaps : Maps :=
  { blockMaps with
    bouheki_config := [(0, { blockConfig with has_allow_uid := 1 })]
    allowed_uid_list := [({ uid := 0 }, 1), ({ uid := 1000 }, 1)] }

/-- As `blockMaps`, with the command allow-list active and holding `sh` only. -/
def allowCommandMaps : Maps :=
  { blockMaps with
    bouheki_config := [(0, { blockConfig with has_allow_command := 1 })]
    allowed_command_list := [({ comm := [115, 104] }, 1)] }

/-- As `allowCommandMaps`, with `curl` in the command allow-list as well. -/
def allowCommandHitMaps : Maps :=
  { allowCommandMaps with
    allowed_command_list := [({ comm := [115, 104] }, 1), ({ comm := [99, 117, 114, 108] }, 1)] }

instance (m1 m2 : Maps) : Decidable (same_snapshot m1 m2) := by
  unfold same_snapshot
  exact inferInstance

/-! ## General facts about the embedding -/

theorem bswap16_eq (x : Nat) : bswap16 x = (x % 256) * 256 + (x / 256) % 256 := by
  unfold bswap16
  have h1 : (x % 2 ^ 16) &&& 0xff = x % 256 := by
    have h := Nat.and_pow_two_sub_one_eq_mod (x % 2 ^ 16) 8
    norm_num at h ⊢
    exact h
  have h2 : (x % 2 ^ 16) >>> 8 = (x / 256) % 256 := by
    rw [Nat.shiftRight_eq_div_pow]
    omega
  have h3 : (x / 256) % 256 < 2 ^ 8 := by omega
  rw [h1, h2, Nat.shiftLeft_eq, Nat.mul_comm, ← Nat.mul_add_lt_is_or h3]
  omega

theorem is_destination_port_zero_iff (p : Nat) :
    is_destination_port_zero p = true ↔ p % 2 ^ 16 = 0 := by
  unfold is_destination_port_zero
  rw [beq_iff_eq, bswap16_eq]
  omega

theorem EPERM_ne_zero : EPERM ≠ 0 := by
  decide

theorem neg_EPERM_ne_zero : (-EPERM : Int) ≠ 0 := by
  decide

/-- What the program does with an attempt that gets past the early returns. -/
theorem socket_connect_of_reaches (K : Common) (m : Maps) (x : Attempt)
    (h : reaches_evaluation K m x = true) :
    socket_connect K m x =
      if mode_is (config m) K.MODE_MONITOR then
        (0, report_ipv4_event K
          (if can_access m x ≠ 0 ∧ mode_is (config m) K.MODE_BLOCK
            then report_ipv4_event K m x x.current_cgroup_id K.ACTION_BLOCK K.CONNECT else m)
          x x.current_cgroup_id K.ACTION_MONITOR K.CONNECT)
      else
        (can_access m x,
          if can_access m x ≠ 0 ∧ mode_is (config m) K.MODE_BLOCK
            then report_ipv4_event K m x x.current_cgroup_id K.ACTION_BLOCK K.CONNECT else m) := by
  unfold reaches_evaluation at h
  simp only [Bool.and_eq_true, decide_eq_true_eq, Bool.not_eq_true', Bool.not_eq_eq_eq_not,
    Bool.not_true] at h
  obtain ⟨⟨h1, h2⟩, h3⟩ := h
  unfold socket_connect
  simp [h1, h2, h3]

theorem allow_connect_of_denied (m : Maps) (x : Attempt) (hden : cidr_denied m x = true) :
    allow_connect m x =
      if uid_allowed m x || gid_allowed m x || command_allowed m x then 0 else -EPERM := by
  unfold allow_connect
  cases command_allowed m x <;> cases uid_allowed m x <;> cases gid_allowed m x <;> simp [hden]

theorem allow_connect_of_not_denied (m : Maps) (x : Attempt) (hden : cidr_denied m x = false) :
    allow_connect m x = allow_connect_0 m x := by
  unfold allow_connect
  simp [hden]

theorem can_access_eq_zero_iff (m : Maps) (x : Attempt) :
    can_access m x = 0 ↔
      allow_connect m x = 0 ∧ allow_uid m x = 0 ∧ allow_gid m x = 0 ∧ allow_command m x = 0 := by
  unfold can_access
  split
  · simp [*]
  · simp [*, EPERM_ne_zero]

theorem can_access_ne_zero_iff (m : Maps) (x : Attempt) :
    can_access m x ≠ 0 ↔ can_access m x = -EPERM := by
  unfold can_access
  split <;> simp [EPERM_ne_zero]

/-- The value returned for an attempt that gets past the early returns, when
the configuration is not in monitoring mode. -/
theorem socket_connect_fst_of_not_monitor (K : Common) (m : Maps) (x : Attempt)
    (hreach : reaches_evaluation K m x = true)
    (hmon : mode_is (config m) K.MODE_MONITOR = false) :
    (socket_connect K m x).1 = can_access m x := by
  rw [socket_connect_of_reaches K m x hreach]
  simp [hmon]

theorem mode_is_of_config (m : Maps) (c : bouheki_config) (mode : Nat)
    (hc : config m = some c) : mode_is (config m) mode = decide (c.mode = mode) := by
  rw [hc]
  rfl

theorem has_allow_uid_of_config (c : bouheki_config) :
    has_allow_uid (some c) = c.has_allow_uid := by
  unfold has_allow_uid
  split <;> simp_all

theorem has_allow_command_of_config (c : bouheki_config) :
    has_allow_command (some c) = c.has_allow_command := by
  unfold has_allow_command
  split <;> simp_all

theorem lpm_longest_isSome_iff (trie : List (ipv4_trie_key × Nat)) (k : ipv4_trie_key) :
    (lpm_longest trie k).isSome = true ↔ ∃ e ∈ trie, lpm_match e.1 k = true := by
  induction trie with
  | nil => simp [lpm_longest]
  | cons e rest ih =>
    unfold lpm_longest
    cases hrest : lpm_longest rest k with
    | none =>
      rw [hrest] at ih
      have hno : ∀ e2 ∈ rest, lpm_match e2.1 k = false := by
        intro e2 he2
        cases hm : lpm_match e2.1 k
        · rfl
        · exact absurd (ih.mpr ⟨e2, he2, hm⟩) (by simp)
      cases hm : lpm_match e.1 k
      · simp only [Bool.false_eq_true, if_false, Option.isSome_none, false_iff]
        rintro ⟨e2, he2, hm2⟩
        rcases List.mem_cons.mp he2 with rfl | h
        · rw [hm] at hm2
          exact Bool.false_ne_true hm2
        · rw [hno e2 h] at hm2
          exact Bool.false_ne_true hm2
      · simp only [if_true, Option.isSome_some, true_iff]
        exact ⟨e, List.mem_cons_self _ _, hm⟩
    | some b =>
      rw [hrest] at ih
      obtain ⟨e2, he2, hm2⟩ := ih.mp rfl
      have hex : ∃ e3 ∈ e :: rest, lpm_match e3.1 k = true :=
        ⟨e2, List.mem_cons_of_mem _ he2, hm2⟩
      simp only [hex, iff_true]
      split <;> rfl

theorem testBit_mod_32 (a b : Nat) (hb : b < 32) : (a % 2 ^ 32).testBit b = a.testBit b := by
  rw [Nat.testBit_mod_two_pow]
  simp [hb]

theorem shift_eq_iff_first_bits (n a d : Nat) (hn : n ≤ 32) :
    a % 2 ^ 32 / 2 ^ (32 - n) = d % 2 ^ 32 / 2 ^ (32 - n) ↔
      ∀ i, i < n → a.testBit (31 - i) = d.testBit (31 - i) := by
  constructor
  · intro h i hi
    have h1 : ((a % 2 ^ 32) >>> (32 - n)).testBit (n - 1 - i)
        = ((d % 2 ^ 32) >>> (32 - n)).testBit (n - 1 - i) := by
      rw [Nat.shiftRight_eq_div_pow, Nat.shiftRight_eq_div_pow, h]
    rw [Nat.testBit_shiftRight, Nat.testBit_shiftRight] at h1
    have h2 : 32 - n + (n - 1 - i) = 31 - i := by omega
    rw [h2, testBit_mod_32 a _ (by omega), testBit_mod_32 d _ (by omega)] at h1
    exact h1
  · intro h
    rw [← Nat.shiftRight_eq_div_pow, ← Nat.shiftRight_eq_div_pow]
    apply Nat.eq_of_testBit_eq
    intro j
    rw [Nat.testBit_shiftRight, Nat.testBit_shiftRight]
    by_cases hj : 32 - n + j < 32
    · rw [testBit_mod_32 a _ hj, testBit_mod_32 d _ hj]
      have h3 := h (n - 1 - j) (by omega)
      have h4 : 31 - (n - 1 - j) = 32 - n + j := by omega
      rw [h4] at h3
      exact h3
    · rw [Nat.testBit_mod_two_pow, Nat.testBit_mod_two_pow]
      simp [hj]

theorem lpm_match_key_iff (e : ipv4_trie_key) (x : Attempt) :
    lpm_match e (key x) = true ↔
      e.prefixlen ≤ 32 ∧ first_bits_equal e.prefixlen e.addr x.sin_addr := by
  unfold lpm_match key first_bits_equal
  simp only [Bool.and_eq_true, decide_eq_true_eq]
  constructor
  · rintro ⟨⟨h1, -⟩, h3⟩
    exact ⟨h1, (shift_eq_iff_first_bits _ _ _ h1).mp h3⟩
  · rintro ⟨h1, h2⟩
    exact ⟨⟨h1, h1⟩, (shift_eq_iff_first_bits _ _ _ h1).mpr h2⟩

theorem lpm_trie_lookup_key_isSome_iff (trie : List (ipv4_trie_key × Nat)) (x : Attempt) :
    (lpm_trie_lookup trie (key x)).isSome = true ↔
      ∃ e ∈ trie, e.1.prefixlen ≤ 32 ∧ first_bits_equal e.1.prefixlen e.1.addr x.sin_addr := by
  have h32 : ¬ 32 < (key x).prefixlen := by
    simp [key]
  unfold lpm_trie_lookup
  rw [if_neg h32, Option.isSome_map', lpm_longest_isSome_iff]
  constructor
  · rintro ⟨e, he, hm⟩
    exact ⟨e, he, (lpm_match_key_iff e.1 x).mp hm⟩
  · rintro ⟨e, he, hm⟩
    exact ⟨e, he, (lpm_match_key_iff e.1 x).mpr hm⟩

theorem can_access_cases (m : Maps) (x : Attempt) :
    can_access m x = 0 ∨ can_access m x = -EPERM := by
  unfold can_access
  split
  · exact Or.inl rfl
  · exact Or.inr rfl

/-- The value the program returns, for every attempt. -/
theorem socket_connect_fst (K : Common) (m : Maps) (x : Attempt) :
    (socket_connect K m x).1 =
      if x.sa_family ≠ AF_INET then 0
      else if is_destination_port_zero x.sin_port then 0
      else if outside_target K m x then 0
      else if mode_is (config m) K.MODE_MONITOR then 0
      else can_access m x := by
  unfold socket_connect
  by_cases h1 : x.sa_family = AF_INET
  · cases h2 : is_destination_port_zero x.sin_port
    · cases h3 : outside_target K m x
      · cases h4 : mode_is (config m) K.MODE_MONITOR <;> simp [h1, h2, h3, h4]
      · simp [h1, h2, h3]
    · simp [h1, h2]
  · simp [h1]

theorem mode_is_unique (c : Option bouheki_config) (a b : Nat)
    (ha : mode_is c a = true) (hb : mode_is c b = true) : a = b := by
  cases c with
  | none => simp [mode_is] at ha
  | some c =>
    simp only [mode_is, decide_eq_true_eq] at ha hb
    rw [← ha, ← hb]

theorem socket_connect_of_not_reaches (K : Common) (m : Maps) (x : Attempt)
    (h : reaches_evaluation K m x = false) :
    socket_connect K m x = (0, m) := by
  unfold reaches_evaluation at h
  unfold socket_connect
  by_cases h1 : x.sa_family = AF_INET
  · cases h2 : is_destination_port_zero x.sin_port
    · cases h3 : outside_target K m x
      · simp [h1, h2, h3] at h
      · simp [h1, h2, h3]
    · simp [h1, h2]
  · simp [h1]

/-- The maps after the call: only the ring buffer can differ, by the records
`evs` appended to it. -/
theorem socket_connect_snd (K : Common) (m : Maps) (x : Attempt) :
    ∃ evs : List audit_event_ipv4,
      (socket_connect K m x).2 = { m with audit_events := m.audit_events ++ evs } ∧
      (K.MODE_BLOCK ≠ K.MODE_MONITOR → evs.length ≤ 1) := by
  cases hr : reaches_evaluation K m x
  · rw [socket_connect_of_not_reaches K m x hr]
    exact ⟨[], by simp, fun _ => by simp⟩
  · rw [socket_connect_of_reaches K m x hr]
    cases h4 : mode_is (config m) K.MODE_MONITOR
    · by_cases h5 : can_access m x ≠ 0 ∧ mode_is (config m) K.MODE_BLOCK = true
      · refine ⟨[report_ipv4_event_ev K x x.current_cgroup_id K.ACTION_BLOCK K.CONNECT], ?_,
          fun _ => by simp⟩
        simp [h5, report_ipv4_event, bpf_ringbuf_output]
      · refine ⟨[], ?_, fun _ => by simp⟩
        simp [h5]
    · by_cases h5 : can_access m x ≠ 0 ∧ mode_is (config m) K.MODE_BLOCK = true
      · refine ⟨[report_ipv4_event_ev K x x.current_cgroup_id K.ACTION_BLOCK K.CONNECT,
          report_ipv4_event_ev K x x.current_cgroup_id K.ACTION_MONITOR K.CONNECT], ?_,
          fun hK => absurd (mode_is_unique _ _ _ h5.2 h4) hK⟩
        simp [h5, report_ipv4_event, bpf_ringbuf_output]
      · refine ⟨[report_ipv4_event_ev K x x.current_cgroup_id K.ACTION_MONITOR K.CONNECT], ?_,
          fun _ => by simp⟩
        simp [h5, report_ipv4_event, bpf_ringbuf_output]

theorem bswap16_of_lt (p : Nat) (hp : p < 2 ^ 16) :
    bswap16 p = ((p &&& 0xff) <<< 8) ||| (p >>> 8) := by
  have h1 : p &&& 0xff = p % 256 := by
    have h := Nat.and_pow_two_sub_one_eq_mod p 8
    norm_num at h ⊢
    exact h
  have h2 : p >>> 8 = p / 256 := by
    rw [Nat.shiftRight_eq_div_pow]
  have h3 : p / 256 < 2 ^ 8 := by omega
  rw [bswap16_eq, h1, h2, Nat.shiftLeft_eq, Nat.mul_comm (p % 256), ← Nat.mul_add_lt_is_or h3]
  omega

/-- A destination that lies in no prefix of either trie is denied. -/
theorem can_access_of_no_cidr_match (m : Maps) (x : Attempt)
    (hna : ¬ ∃ e ∈ m.allowed_cidr_list, first_bits_equal e.1.prefixlen e.1.addr x.sin_addr)
    (hnd : ¬ ∃ e ∈ m.denied_cidr_list, first_bits_equal e.1.prefixlen e.1.addr x.sin_addr) :
    can_access m x = -EPERM := by
  have hal : cidr_allowed m x = false := by
    cases h : cidr_allowed m x
    · rfl
    · obtain ⟨e, he, -, hb⟩ := (lpm_trie_lookup_key_isSome_iff _ x).mp h
      exact absurd ⟨e, he, hb⟩ hna
  have hden : cidr_denied m x = false := by
    cases h : cidr_denied m x
    · rfl
    · obtain ⟨e, he, -, hb⟩ := (lpm_trie_lookup_key_isSome_iff _ x).mp h
      exact absurd ⟨e, he, hb⟩ hnd
  rw [← can_access_ne_zero_iff, Ne, can_access_eq_zero_iff]
  rintro ⟨h1, -⟩
  rw [allow_connect_of_not_denied m x hden] at h1
  simp [allow_connect_0, hal, EPERM_ne_zero] at h1

/-- A hash-map lookup succeeds exactly when the map holds an entry under the
key. -/
theorem bpf_map_lookup_elem_isSome_iff {κ ν : Type} [DecidableEq κ] (map : List (κ × ν))
    (k : κ) : (bpf_map_lookup_elem map k).isSome = true ↔ ∃ e ∈ map, e.1 = k := by
  unfold bpf_map_lookup_elem
  rw [Option.isSome_map', List.find?_isSome]
  simp

theorem uid_allowed_iff (m : Maps) (x : Attempt) :
    uid_allowed m x = true ↔ ∃ e ∈ m.allowed_uid_list, e.1.uid = current_uid x := by
  unfold uid_allowed
  rw [bpf_map_lookup_elem_isSome_iff]
  constructor
  · rintro ⟨e, he, h⟩
    exact ⟨e, he, by rw [h]⟩
  · rintro ⟨e, he, h⟩
    exact ⟨e, he, by cases e with | mk k v => cases k; simp_all⟩

theorem gid_allowed_iff (m : Maps) (x : Attempt) :
    gid_allowed m x = true ↔ ∃ e ∈ m.allowed_gid_list, e.1.gid = current_gid x := by
  unfold gid_allowed
  rw [bpf_map_lookup_elem_isSome_iff]
  constructor
  · rintro ⟨e, he, h⟩
    exact ⟨e, he, by rw [h]⟩
  · rintro ⟨e, he, h⟩
    exact ⟨e, he, by cases e with | mk k v => cases k; simp_all⟩

theorem command_allowed_iff (m : Maps) (x : Attempt) :
    command_allowed m x = true ↔ ∃ e ∈ m.allowed_command_list, e.1.comm = x.current_comm := by
  unfold command_allowed
  rw [bpf_map_lookup_elem_isSome_iff]
  constructor
  · rintro ⟨e, he, h⟩
    exact ⟨e, he, by rw [h]⟩
  · rintro ⟨e, he, h⟩
    exact ⟨e, he, by cases e with | mk k v => cases k; simp_all⟩

theorem uid_denied_iff (m : Maps) (x : Attempt) :
    uid_denied m x = true ↔ ∃ e ∈ m.denied_uid_list, e.1.uid = current_uid x := by
  unfold uid_denied
  rw [bpf_map_lookup_elem_isSome_iff]
  constructor
  · rintro ⟨e, he, h⟩
    exact ⟨e, he, by rw [h]⟩
  · rintro ⟨e, he, h⟩
    exact ⟨e, he, by cases e with | mk k v => cases k; simp_all⟩

theorem gid_denied_iff (m : Maps) (x : Attempt) :
    gid_denied m x = true ↔ ∃ e ∈ m.denied_gid_list, e.1.gid = current_gid x := by
  unfold gid_denied
  rw [bpf_map_lookup_elem_isSome_iff]
  constructor
  · rintro ⟨e, he, h⟩
    exact ⟨e, he, by rw [h]⟩
  · rintro ⟨e, he, h⟩
    exact ⟨e, he, by cases e with | mk k v => cases k; simp_all⟩

theorem command_denied_iff (m : Maps) (x : Attempt) :
    command_denied m x = true ↔ ∃ e ∈ m.denied_command_list, e.1.comm = x.current_comm := by
  unfold command_denied
  rw [bpf_map_lookup_elem_isSome_iff]
  constructor
  · rintro ⟨e, he, h⟩
    exact ⟨e, he, by rw [h]⟩
  · rintro ⟨e, he, h⟩
    exact ⟨e, he, by cases e with | mk k v => cases k; simp_all⟩

/-- With the destination in the denied trie, the final `allow_connect` is 0
exactly when one of the three allow-lists holds the identity of the task. -/
theorem allow_connect_of_denied_iff (m : Maps) (x : Attempt) (hden : cidr_denied m x = true) :
    allow_connect m x = 0 ↔
      ((∃ e ∈ m.allowed_uid_list, e.1.uid = current_uid x) ∨
        (∃ e ∈ m.allowed_gid_list, e.1.gid = current_gid x) ∨
        (∃ e ∈ m.allowed_command_list, e.1.comm = x.current_comm)) := by
  rw [allow_connect_of_denied m x hden, ← uid_allowed_iff, ← gid_allowed_iff,
    ← command_allowed_iff]
  cases command_allowed m x <;> cases uid_allowed m x <;> cases gid_allowed m x <;>
    simp [EPERM_ne_zero]

theorem allow_connect_cases (m : Maps) (x : Attempt) :
    allow_connect m x = 0 ∨ allow_connect m x = -EPERM := by
  unfold allow_connect allow_connect_0
  cases cidr_denied m x <;> cases cidr_allowed m x <;> cases command_allowed m x <;>
    cases uid_allowed m x <;> cases gid_allowed m x <;> simp

/-- The verdict reads the maps only through the configuration and the eight
policy maps, and the attempt only through the destination address, the uid,
the gid and the command. -/
theorem can_access_congr_snapshot (m1 m2 : Maps) (x y : Attempt) (hs : same_snapshot m1 m2)
    (haddr : x.sin_addr = y.sin_addr)
    (huid : current_uid x = current_uid y) (hgid : current_gid x = current_gid y)
    (hcomm : x.current_comm = y.current_comm) :
    can_access m1 x = can_access m2 y := by
  obtain ⟨h1, h2, h3, h4, h5, h6, h7, h8, h9⟩ := hs
  have hk : key x = key y := by
    simp [key, haddr]
  simp only [can_access, allow_connect, allow_connect_0, allow_uid, allow_uid_0, allow_gid,
    allow_gid_0, allow_command, allow_command_0, cidr_allowed, cidr_denied, uid_allowed,
    gid_allowed, command_allowed, command_denied, uid_denied, gid_denied, config,
    hk, huid, hgid, hcomm, h1, h2, h3, h4, h5, h6, h7, h8, h9]

theorem same_snapshot_socket_connect (K : Common) (m : Maps) (x : Attempt) :
    same_snapshot m (socket_connect K m x).2 := by
  obtain ⟨evs, h, -⟩ := socket_connect_snd K m x
  rw [h]
  exact ⟨rfl, rfl, rfl, rfl, rfl, rfl, rfl, rfl, rfl⟩

/-! ## The claims -/

/-- C1: for an attempt that gets past the early returns and whose destination
lies in a prefix of `denied_cidr_list`, the final `allow_connect` is 0 exactly
when `allowed_uid_list` holds the uid, or `allowed_gid_list` holds the gid, or
`allowed_command_list` holds the command of the task, whatever the allowed trie
holds; when none of the three lists holds it, `allow_connect` and `can_access`
are `-EPERM`, which is also the value returned unless the configuration is in
monitoring mode. -/
theorem denied_cidr_override (K : Common) (m : Maps) (x : Attempt)
    (hreach : reaches_evaluation K m x = true)
    (hden : ∃ e ∈ m.denied_cidr_list,
      e.1.prefixlen ≤ 32 ∧ first_bits_equal e.1.prefixlen e.1.addr x.sin_addr) :
    (allow_connect m x = 0 ↔
      ((∃ e ∈ m.allowed_uid_list, e.1.uid = current_uid x) ∨
        (∃ e ∈ m.allowed_gid_list, e.1.gid = current_gid x) ∨
        (∃ e ∈ m.allowed_command_list, e.1.comm = x.current_comm))) ∧
    (¬ ((∃ e ∈ m.allowed_uid_list, e.1.uid = current_uid x) ∨
        (∃ e ∈ m.allowed_gid_list, e.1.gid = current_gid x) ∨
        (∃ e ∈ m.allowed_command_list, e.1.comm = x.current_comm)) →
      allow_connect m x = -EPERM ∧ can_access m x = -EPERM ∧
      (mode_is (config m) K.MODE_MONITOR = false → (socket_connect K m x).1 = -EPERM)) := by
  have hd : cidr_denied m x = true := (lpm_trie_lookup_key_isSome_iff _ x).mpr hden
  have h1 := allow_connect_of_denied_iff m x hd
  refine ⟨h1, fun hnone => ?_⟩
  have h0 : allow_connect m x ≠ 0 := fun h => hnone (h1.mp h)
  have h2 : can_access m x = -EPERM := by
    rw [← can_access_ne_zero_iff, Ne, can_access_eq_zero_iff]
    intro h
    exact h0 h.1
  refine ⟨?_, h2, fun hmon => by rw [socket_connect_fst_of_not_monitor K m x hreach hmon, h2]⟩
  rcases allow_connect_cases m x with h | h
  · exact absurd h h0
  · exact h

theorem denied_cidr_override_witness :
    (cidr_denied deniedCidrMaps sampleAttempt = true ∧
      uid_allowed overrideUidMaps sampleAttempt = true ∧
      gid_allowed overrideGidMaps sampleAttempt = true ∧
      command_allowed overrideMaps sampleAttempt = true) ∧
    (allow_connect deniedCidrMaps sampleAttempt = -EPERM ∧
      (socket_connect sampleCommon deniedCidrMaps sampleAttempt).1 = -EPERM) ∧
    allow_connect overrideUidMaps sampleAttempt = 0 ∧
    allow_connect overrideGidMaps sampleAttempt = 0 ∧
    allow_connect overrideMaps sampleAttempt = 0 :=
  have h := denied_cidr_override sampleCommon deniedCidrMaps sampleAttempt (by decide)
    ⟨({ prefixlen := 8, addr := 0x0a000000 }, 1), by decide, by decide, by decide⟩
  have hu := denied_cidr_override sampleCommon overrideUidMaps sampleAttempt (by decide)
    ⟨({ prefixlen := 8, addr := 0x0a000000 }, 1), by decide, by decide, by decide⟩
  have hg := denied_cidr_override sampleCommon overrideGidMaps sampleAttempt (by decide)
    ⟨({ prefixlen := 8, addr := 0x0a000000 }, 1), by decide, by decide, by decide⟩
  have hc := denied_cidr_override sampleCommon overrideMaps sampleAttempt (by decide)
    ⟨({ prefixlen := 8, addr := 0x0a000000 }, 1), by decide, by decide, by decide⟩
  ⟨by decide, ⟨(h.2 (by decide)).1, (h.2 (by decide)).2.2 (by decide)⟩,
    hu.1.mpr (Or.inl ⟨({ uid := 1000 }, 1), by decide, by decide⟩),
    hg.1.mpr (Or.inr (Or.inl ⟨({ gid := 100 }, 1), by decide, by decide⟩)),
    hc.1.mpr (Or.inr (Or.inr ⟨({ comm := [99, 117, 114, 108] }, 1), by decide, by decide⟩))⟩

/-- C2: for an attempt that gets past the early returns, when
`denied_command_list` holds the command, or `denied_uid_list` holds the uid, or
`denied_gid_list` holds the gid of the task, the final sub-verdict of that
dimension is `-EPERM` and so is `can_access`, whatever the allow-lists, the
flags and the tries hold; with a configuration in blocking mode the program
returns `-EPERM`. -/
theorem identity_deny_absolute (K : Common) (m : Maps) (x : Attempt)
    (hreach : reaches_evaluation K m x = true)
    (hden : (∃ e ∈ m.denied_command_list, e.1.comm = x.current_comm) ∨
      (∃ e ∈ m.denied_uid_list, e.1.uid = current_uid x) ∨
      (∃ e ∈ m.denied_gid_list, e.1.gid = current_gid x)) :
    ((∃ e ∈ m.denied_command_list, e.1.comm = x.current_comm) →
      allow_command m x = -EPERM) ∧
    ((∃ e ∈ m.denied_uid_list, e.1.uid = current_uid x) → allow_uid m x = -EPERM) ∧
    ((∃ e ∈ m.denied_gid_list, e.1.gid = current_gid x) → allow_gid m x = -EPERM) ∧
    can_access m x = -EPERM ∧
    (∀ c : bouheki_config, config m = some c → c.mode = K.MODE_BLOCK →
      K.MODE_BLOCK ≠ K.MODE_MONITOR → (socket_connect K m x).1 = -EPERM) := by
  have hc : (∃ e ∈ m.denied_command_list, e.1.comm = x.current_comm) →
      allow_command m x = -EPERM := by
    intro h
    simp [allow_command, (command_denied_iff m x).mpr h]
  have hu : (∃ e ∈ m.denied_uid_list, e.1.uid = current_uid x) → allow_uid m x = -EPERM := by
    intro h
    simp [allow_uid, (uid_denied_iff m x).mpr h]
  have hg : (∃ e ∈ m.denied_gid_list, e.1.gid = current_gid x) → allow_gid m x = -EPERM := by
    intro h
    simp [allow_gid, (gid_denied_iff m x).mpr h]
  have hca : can_access m x = -EPERM := by
    rw [← can_access_ne_zero_iff, Ne, can_access_eq_zero_iff]
    rintro ⟨-, h2, h3, h4⟩
    rcases hden with h | h | h
    · rw [hc h] at h4
      exact neg_EPERM_ne_zero h4
    · rw [hu h] at h2
      exact neg_EPERM_ne_zero h2
    · rw [hg h] at h3
      exact neg_EPERM_ne_zero h3
  refine ⟨hc, hu, hg, hca, ?_⟩
  intro c hcfg hmode hK
  rw [socket_connect_fst_of_not_monitor K m x hreach, hca]
  rw [mode_is_of_config m c _ hcfg, hmode]
  simpa using hK

theorem identity_deny_absolute_witness :
    (command_denied deniedCommandMaps sampleAttempt = true ∧
      uid_denied deniedUidMaps sampleAttempt = true ∧
      uid_allowed deniedUidMaps sampleAttempt = true ∧
      gid_denied deniedGidMaps sampleAttempt = true ∧
      gid_allowed deniedGidMaps sampleAttempt = true) ∧
    (allow_command deniedCommandMaps sampleAttempt = -EPERM ∧
      (socket_connect sampleCommon deniedCommandMaps sampleAttempt).1 = -EPERM) ∧
    (allow_uid deniedUidMaps sampleAttempt = -EPERM ∧
      (socket_connect sampleCommon deniedUidMaps sampleAttempt).1 = -EPERM) ∧
    (allow_gid deniedGidMaps sampleAttempt = -EPERM ∧
      (socket_connect sampleCommon deniedGidMaps sampleAttempt).1 = -EPERM) :=
  have hc := identity_deny_absolute sampleCommon deniedCommandMaps sampleAttempt (by decide)
    (Or.inl ⟨({ comm := [99, 117, 114, 108] }, 1), by decide, by decide⟩)
  have hu := identity_deny_absolute sampleCommon deniedUidMaps sampleAttempt (by decide)
    (Or.inr (Or.inl ⟨({ uid := 1000 }, 1), by decide, by decide⟩))
  have hg := identity_deny_absolute sampleCommon deniedGidMaps sampleAttempt (by decide)
    (Or.inr (Or.inr ⟨({ gid := 100 }, 1), by decide, by decide⟩))
  ⟨by decide, ⟨hc.1 ⟨({ comm := [99, 117, 114, 108] }, 1), by decide, by decide⟩,
      hc.2.2.2.2 blockConfig (by decide) (by decide) (by decide)⟩,
    ⟨hu.2.1 ⟨({ uid := 1000 }, 1), by decide, by decide⟩,
      hu.2.2.2.2 blockConfig (by decide) (by decide) (by decide)⟩,
    ⟨hg.2.2.1 ⟨({ gid := 100 }, 1), by decide, by decide⟩,
      hg.2.2.2.2 blockConfig (by decide) (by decide) (by decide)⟩⟩

/-- C3: `allow_gid` before the denied list is 0 for every attempt and all maps,
since the local `has_allow_gid` stays 0; with a configuration in blocking mode
whose `has_allow_gid` is 1 and a gid that `allowed_gid_list` does not hold, the
program returns 0 and appends no event. -/
theorem gid_allow_list_not_consulted :
    (∀ (m : Maps) (x : Attempt), allow_gid_0 m x = 0) ∧
    config allowGidMaps = some { blockConfig with has_allow_gid := 1 } ∧
    reaches_evaluation sampleCommon allowGidMaps sampleAttempt = true ∧
    gid_allowed allowGidMaps sampleAttempt = false ∧
    socket_connect sampleCommon allowGidMaps sampleAttempt = (0, allowGidMaps) := by
  refine ⟨?_, by decide, by decide, by decide, by decide⟩
  intro m x
  simp [allow_gid_0, has_allow_gid]

/-- C4: for an attempt that gets past the early returns with a configuration
present, `allow_uid` before the denied lists is 0 exactly when
`allowed_uid_list` holds the uid of the task or `has_allow_uid` is 0, and
`allow_command` before the denied lists is 0 exactly when
`allowed_command_list` holds the command of the task or `has_allow_command` is
0; an active allow-list that does not hold the identity makes `can_access`
equal to `-EPERM`, which is also the value returned unless the configuration is
in monitoring mode. -/
theorem uid_command_allow_lists (K : Common) (m : Maps) (x : Attempt) (c : bouheki_config)
    (hreach : reaches_evaluation K m x = true) (hc : config m = some c) :
    (allow_uid_0 m x = 0 ↔
      ((∃ e ∈ m.allowed_uid_list, e.1.uid = current_uid x) ∨ c.has_allow_uid = 0)) ∧
    (allow_command_0 m x = 0 ↔
      ((∃ e ∈ m.allowed_command_list, e.1.comm = x.current_comm) ∨
        c.has_allow_command = 0)) ∧
    (((¬ ∃ e ∈ m.allowed_uid_list, e.1.uid = current_uid x) ∧ c.has_allow_uid ≠ 0) ∨
        ((¬ ∃ e ∈ m.allowed_command_list, e.1.comm = x.current_comm) ∧
          c.has_allow_command ≠ 0) →
      can_access m x = -EPERM ∧
      (mode_is (config m) K.MODE_MONITOR = false → (socket_connect K m x).1 = -EPERM)) := by
  have hu : allow_uid_0 m x = 0 ↔
      ((∃ e ∈ m.allowed_uid_list, e.1.uid = current_uid x) ∨ c.has_allow_uid = 0) := by
    rw [← uid_allowed_iff]
    unfold allow_uid_0
    rw [hc, has_allow_uid_of_config]
    split <;> simp_all [EPERM_ne_zero]
  have hcm : allow_command_0 m x = 0 ↔
      ((∃ e ∈ m.allowed_command_list, e.1.comm = x.current_comm) ∨
        c.has_allow_command = 0) := by
    rw [← command_allowed_iff]
    unfold allow_command_0
    rw [hc, has_allow_command_of_config]
    split <;> simp_all [EPERM_ne_zero]
  refine ⟨hu, hcm, fun h => ?_⟩
  have hca : can_access m x = -EPERM := by
    rw [← can_access_ne_zero_iff, Ne, can_access_eq_zero_iff]
    rintro ⟨-, h2, -, h4⟩
    rcases h with ⟨ha, hb⟩ | ⟨ha, hb⟩
    · have h5 : allow_uid_0 m x = 0 := by
        unfold allow_uid at h2
        split at h2
        · exact absurd h2 neg_EPERM_ne_zero
        · exact h2
      rcases hu.mp h5 with h6 | h6
      · exact ha h6
      · exact hb h6
    · have h5 : allow_command_0 m x = 0 := by
        unfold allow_command at h4
        split at h4
        · exact absurd h4 neg_EPERM_ne_zero
        · exact h4
      rcases hcm.mp h5 with h6 | h6
      · exact ha h6
      · exact hb h6
  exact ⟨hca, fun hmon => by rw [socket_connect_fst_of_not_monitor K m x hreach hmon, hca]⟩

theorem uid_command_allow_lists_witness :
    (uid_allowed allowUidMaps sampleAttempt = false ∧
      uid_allowed allowUidHitMaps sampleAttempt = true ∧
      command_allowed allowCommandMaps sampleAttempt = false ∧
      command_allowed allowCommandHitMaps sampleAttempt = true) ∧
    (allow_uid_0 allowUidMaps sampleAttempt ≠ 0 ∧
      (socket_connect sampleCommon allowUidMaps sampleAttempt).1 = -EPERM) ∧
    allow_uid_0 allowUidHitMaps sampleAttempt = 0 ∧
    (allow_command_0 allowCommandMaps sampleAttempt ≠ 0 ∧
      (socket_connect sampleCommon allowCommandMaps sampleAttempt).1 = -EPERM) ∧
    allow_command_0 allowCommandHitMaps sampleAttempt = 0 :=
  have h1 := uid_command_allow_lists sampleCommon allowUidMaps sampleAttempt
    { blockConfig with has_allow_uid := 1 } (by decide) (by decide)
  have h2 := uid_command_allow_lists sampleCommon allowUidHitMaps sampleAttempt
    { blockConfig with has_allow_uid := 1 } (by decide) (by decide)
  have h3 := uid_command_allow_lists sampleCommon allowCommandMaps sampleAttempt
    { blockConfig with has_allow_command := 1 } (by decide) (by decide)
  have h4 := uid_command_allow_lists sampleCommon allowCommandHitMaps sampleAttempt
    { blockConfig with has_allow_command := 1 } (by decide) (by decide)
  ⟨by decide, ⟨fun h0 => absurd (h1.1.mp h0) (by decide),
      (h1.2.2 (Or.inl ⟨by decide, by decide⟩)).2 (by decide)⟩,
    h2.1.mpr (Or.inl ⟨({ uid := 1000 }, 1), by decide, by decide⟩),
    ⟨fun h0 => absurd (h3.2.1.mp h0) (by decide),
      (h3.2.2 (Or.inr ⟨by decide, by decide⟩)).2 (by decide)⟩,
    h4.2.1.mpr (Or.inl ⟨({ comm := [99, 117, 114, 108] }, 1), by decide, by decide⟩)⟩

/-- C5: the key of both trie lookups has prefix length 32 and the destination
address of the attempt; for an allowed trie whose prefixes are at most 32 bits
long, `allow_connect` before the denied trie is 0 exactly when some entry of
`allowed_cidr_list` agrees with the destination on the first `prefixlen` bits;
and a destination that lies in no prefix of either trie makes `can_access`
equal to `-EPERM`, whatever the other maps and the flags hold, which is also
the value returned unless the configuration is in monitoring mode. -/
theorem network_allow_match (K : Common) (m : Maps) (x : Attempt)
    (hreach : reaches_evaluation K m x = true)
    (hwf : ∀ e ∈ m.allowed_cidr_list, e.1.prefixlen ≤ 32) :
    key x = { prefixlen := 32, addr := x.sin_addr } ∧
    cidr_allowed m x = (lpm_trie_lookup m.allowed_cidr_list (key x)).isSome ∧
    cidr_denied m x = (lpm_trie_lookup m.denied_cidr_list (key x)).isSome ∧
    (allow_connect_0 m x = 0 ↔
      ∃ e ∈ m.allowed_cidr_list, first_bits_equal e.1.prefixlen e.1.addr x.sin_addr) ∧
    ((¬ ∃ e ∈ m.allowed_cidr_list, first_bits_equal e.1.prefixlen e.1.addr x.sin_addr) →
      (¬ ∃ e ∈ m.denied_cidr_list, first_bits_equal e.1.prefixlen e.1.addr x.sin_addr) →
      can_access m x = -EPERM ∧
      (mode_is (config m) K.MODE_MONITOR = false → (socket_connect K m x).1 = -EPERM)) := by
  have hiff : allow_connect_0 m x = 0 ↔
      ∃ e ∈ m.allowed_cidr_list, first_bits_equal e.1.prefixlen e.1.addr x.sin_addr := by
    unfold allow_connect_0 cidr_allowed
    constructor
    · intro h
      split at h
      · rename_i hs
        obtain ⟨e, he, -, hb⟩ := (lpm_trie_lookup_key_isSome_iff _ x).mp hs
        exact ⟨e, he, hb⟩
      · exact absurd h neg_EPERM_ne_zero
    · rintro ⟨e, he, hb⟩
      rw [if_pos ((lpm_trie_lookup_key_isSome_iff _ x).mpr ⟨e, he, hwf e he, hb⟩)]
  refine ⟨rfl, rfl, rfl, hiff, fun hna hnd => ?_⟩
  have hden : cidr_denied m x = false := by
    cases h : cidr_denied m x
    · rfl
    · obtain ⟨e, he, -, hb⟩ := (lpm_trie_lookup_key_isSome_iff _ x).mp h
      exact absurd ⟨e, he, hb⟩ hnd
  have hca : can_access m x = -EPERM := by
    rw [← can_access_ne_zero_iff, Ne, can_access_eq_zero_iff]
    rintro ⟨h1, -⟩
    rw [allow_connect_of_not_denied m x hden] at h1
    exact hna (hiff.mp h1)
  exact ⟨hca, fun hmon => by rw [socket_connect_fst_of_not_monitor K m x hreach hmon, hca]⟩

theorem network_allow_match_witness :
    allow_connect_0 blockMaps sampleAttempt = 0 ∧
    can_access emptyMaps sampleAttempt = -EPERM ∧
    (socket_connect sampleCommon emptyMaps sampleAttempt).1 = -EPERM :=
  have h := network_allow_match sampleCommon blockMaps sampleAttempt (by decide) (by decide)
  have h0 := network_allow_match sampleCommon emptyMaps sampleAttempt (by decide) (by decide)
  ⟨h.2.2.2.1.mpr ⟨({ prefixlen := 24, addr := 0x0a00004d }, 1), by decide, by decide⟩,
    (h0.2.2.2.2 (by decide) (by decide)).1, (h0.2.2.2.2 (by decide) (by decide)).2 (by decide)⟩

/-- C6: for an attempt that gets past the early returns with a configuration in
blocking mode, when `can_access` is `-EPERM` the program returns `-EPERM` and
appends exactly one event, built with `ACTION_BLOCK`; when `can_access` is 0 it
returns 0 and leaves the ring buffer as it was. -/
theorem enforce_mode (K : Common) (m : Maps) (x : Attempt) (c : bouheki_config)
    (hreach : reaches_evaluation K m x = true) (hc : config m = some c)
    (hmode : c.mode = K.MODE_BLOCK) (hK : K.MODE_BLOCK ≠ K.MODE_MONITOR) :
    (can_access m x = -EPERM →
      socket_connect K m x =
        (-EPERM, { m with audit_events := m.audit_events ++
          [report_ipv4_event_ev K x x.current_cgroup_id K.ACTION_BLOCK K.CONNECT] }) ∧
      (report_ipv4_event_ev K x x.current_cgroup_id K.ACTION_BLOCK K.CONNECT).action
        = K.ACTION_BLOCK % 2 ^ 8) ∧
    (can_access m x = 0 → socket_connect K m x = (0, m)) := by
  have hmon : mode_is (config m) K.MODE_MONITOR = false := by
    rw [mode_is_of_config m c _ hc, hmode]
    simpa using hK
  have hblk : mode_is (config m) K.MODE_BLOCK = true := by
    rw [mode_is_of_config m c _ hc, hmode]
    simp
  rw [socket_connect_of_reaches K m x hreach]
  constructor
  · intro hca
    simp [hmon, hblk, hca, EPERM_ne_zero, report_ipv4_event, bpf_ringbuf_output,
      report_ipv4_event_ev]
  · intro hca
    simp [hmon, hca]

theorem enforce_mode_witness :
    socket_connect sampleCommon deniedCidrMaps sampleAttempt =
      (-EPERM, { deniedCidrMaps with audit_events :=
        [report_ipv4_event_ev sampleCommon sampleAttempt 7 1 0] }) ∧
    socket_connect sampleCommon blockMaps sampleAttempt = (0, blockMaps) :=
  ⟨((enforce_mode sampleCommon deniedCidrMaps sampleAttempt blockConfig (by decide) (by decide)
      (by decide) (by decide)).1 (by decide)).1,
    (enforce_mode sampleCommon blockMaps sampleAttempt blockConfig (by decide) (by decide)
      (by decide) (by decide)).2 (by decide)⟩

/-- C7: for an attempt that gets past the early returns with a configuration in
monitoring mode, the program returns 0 and appends exactly one event, built
with `ACTION_MONITOR`, whatever `can_access` is; the appended event does not
carry `ACTION_BLOCK`. -/
theorem monitor_mode (K : Common) (m : Maps) (x : Attempt) (c : bouheki_config)
    (hreach : reaches_evaluation K m x = true) (hc : config m = some c)
    (hmode : c.mode = K.MODE_MONITOR) (hK : K.MODE_BLOCK ≠ K.MODE_MONITOR)
    (hA : K.ACTION_MONITOR % 2 ^ 8 ≠ K.ACTION_BLOCK % 2 ^ 8) :
    socket_connect K m x =
      (0, { m with audit_events := m.audit_events ++
        [report_ipv4_event_ev K x x.current_cgroup_id K.ACTION_MONITOR K.CONNECT] }) ∧
    (report_ipv4_event_ev K x x.current_cgroup_id K.ACTION_MONITOR K.CONNECT).action
      = K.ACTION_MONITOR % 2 ^ 8 ∧
    (report_ipv4_event_ev K x x.current_cgroup_id K.ACTION_MONITOR K.CONNECT).action
      ≠ K.ACTION_BLOCK % 2 ^ 8 := by
  have hmon : mode_is (config m) K.MODE_MONITOR = true := by
    rw [mode_is_of_config m c _ hc, hmode]
    simp
  have hblk : mode_is (config m) K.MODE_BLOCK = false := by
    rw [mode_is_of_config m c _ hc, hmode]
    simpa using fun h => hK h.symm
  rw [socket_connect_of_reaches K m x hreach]
  refine ⟨?_, rfl, hA⟩
  simp [hmon, hblk, report_ipv4_event, bpf_ringbuf_output]

theorem monitor_mode_witness :
    can_access { monitorMaps with allowed_cidr_list := [] } sampleAttempt = -EPERM ∧
    socket_connect sampleCommon { monitorMaps with allowed_cidr_list := [] } sampleAttempt =
      (0, { monitorMaps with
        allowed_cidr_list := []
        audit_events := [report_ipv4_event_ev sampleCommon sampleAttempt 7 0 0] }) :=
  ⟨by decide,
    (monitor_mode sampleCommon { monitorMaps with allowed_cidr_list := [] } sampleAttempt
      { blockConfig with mode := 0 } (by decide) (by decide) (by decide) (by decide)
      (by decide)).1⟩

/-- C8, as stated, fails: without a configuration, an attempt to a destination
that the allowed trie does not hold returns `-EPERM`. -/
theorem absent_config_rejects :
    config emptyMaps = none ∧
    socket_connect sampleCommon emptyMaps sampleAttempt = (-EPERM, emptyMaps) := by
  decide

/-- C8, amended: when the configuration lookup misses, the three locals
`has_allow_command`, `has_allow_uid` and `has_allow_gid` are 0, so that the
three identity sub-verdicts before the denied lists are 0; the program appends
no event, and it returns `can_access` for an IPv4 attempt with a non-zero port
and 0 for any other attempt. -/
theorem absent_config_verdict (K : Common) (m : Maps) (x : Attempt)
    (hc : config m = none) :
    has_allow_command (config m) = 0 ∧ has_allow_uid (config m) = 0 ∧
    has_allow_gid (config m) = 0 ∧
    allow_command_0 m x = 0 ∧ allow_uid_0 m x = 0 ∧ allow_gid_0 m x = 0 ∧
    socket_connect K m x =
      (if x.sa_family = AF_INET ∧ is_destination_port_zero x.sin_port = false
        then can_access m x else 0, m) := by
  refine ⟨by rw [hc]; rfl, by rw [hc]; rfl, rfl, ?_, ?_, ?_, ?_⟩
  · simp [allow_command_0, hc, has_allow_command]
  · simp [allow_uid_0, hc, has_allow_uid]
  · simp [allow_gid_0, has_allow_gid]
  · unfold socket_connect
    simp only [outside_target, hc, mode_is]
    by_cases h1 : x.sa_family = AF_INET
    · cases h2 : is_destination_port_zero x.sin_port <;> simp [h1]
    · simp [h1]

theorem absent_config_verdict_witness :
    config noConfigMaps = none ∧
    socket_connect sampleCommon noConfigMaps sampleAttempt = (0, noConfigMaps) :=
  ⟨by decide,
    (absent_config_verdict sampleCommon noConfigMaps sampleAttempt (by decide)).2.2.2.2.2.2.trans
      (by decide)⟩

/-- C9: an attempt whose address family is not `AF_INET` returns 0 and leaves
the maps, the ring buffer included, as they were, whatever the maps hold. -/
theorem non_ipv4_pass_through (K : Common) (m : Maps) (x : Attempt)
    (h : x.sa_family ≠ AF_INET) :
    socket_connect K m x = (0, m) := by
  unfold socket_connect
  simp [h]

theorem non_ipv4_pass_through_witness :
    socket_connect sampleCommon { emptyMaps with bouheki_config := [(0, blockConfig)] }
        { sampleAttempt with sa_family := 10 }
      = (0, { emptyMaps with bouheki_config := [(0, blockConfig)] }) :=
  non_ipv4_pass_through sampleCommon _ _ (by decide)

/-- C10: on a 16-bit `sin_port`, `is_destination_port_zero` holds exactly for
0; and an IPv4 attempt to port 0 returns 0 and leaves the maps, the ring buffer
included, as they were, whatever the configuration and the maps hold. -/
theorem port_zero_pass_through :
    (∀ p : Nat, p < 2 ^ 16 → (is_destination_port_zero p = true ↔ p = 0)) ∧
    (∀ (K : Common) (m : Maps) (x : Attempt), x.sa_family = AF_INET → x.sin_port = 0 →
      socket_connect K m x = (0, m)) := by
  refine ⟨?_, ?_⟩
  · intro p hp
    rw [is_destination_port_zero_iff]
    omega
  · intro K m x hfam hport
    have hz : is_destination_port_zero x.sin_port = true := by
      rw [is_destination_port_zero_iff, hport]
      exact Nat.zero_mod _
    unfold socket_connect
    simp [hfam, hz]

theorem port_zero_pass_through_witness :
    (is_destination_port_zero 0 = true ↔ (0 : Nat) = 0) ∧
    socket_connect sampleCommon
        { emptyMaps with bouheki_config := [(0, { blockConfig with mode := 0 })] }
        { sampleAttempt with sin_port := 0 }
      = (0, { emptyMaps with bouheki_config := [(0, { blockConfig with mode := 0 })] }) :=
  ⟨port_zero_pass_through.1 0 (by decide), port_zero_pass_through.2 sampleCommon _ _ rfl rfl⟩

/-- C11: with a configuration whose target is `TARGET_CONTAINER` and a task
that is not in a container, the program returns 0 and leaves the maps, the ring
buffer included, as they were, whatever the policy maps, the flags and the mode
are. -/
theorem container_scope (K : Common) (m : Maps) (x : Attempt) (c : bouheki_config)
    (hc : config m = some c) (ht : c.target = K.TARGET_CONTAINER)
    (hcont : x.is_container = false) :
    socket_connect K m x = (0, m) := by
  have hout : outside_target K m x = true := by
    simp [outside_target, hc, ht, hcont]
  unfold socket_connect
  by_cases h1 : x.sa_family = AF_INET
  · cases h2 : is_destination_port_zero x.sin_port <;> simp [h1, hout]
  · simp [h1]

theorem container_scope_witness :
    mode_is (config containerMaps) sampleCommon.MODE_MONITOR = true ∧
    can_access containerMaps sampleAttempt = -EPERM ∧
    socket_connect sampleCommon containerMaps sampleAttempt = (0, containerMaps) :=
  ⟨by decide, by decide,
    container_scope sampleCommon containerMaps sampleAttempt
      { blockConfig with mode := 0, target := 1 } (by decide) (by decide) (by decide)⟩

/-- C12, as stated, fails: the destination is in the denied trie and the
command is in `allowed_command_list`, yet `can_access` is `-EPERM` because the
uid is in `denied_uid_list`. -/
theorem override_not_sufficient :
    reaches_evaluation sampleCommon overrideDeniedUidMaps sampleAttempt = true ∧
    cidr_denied overrideDeniedUidMaps sampleAttempt = true ∧
    command_allowed overrideDeniedUidMaps sampleAttempt = true ∧
    can_access overrideDeniedUidMaps sampleAttempt = -EPERM ∧
    (socket_connect sampleCommon overrideDeniedUidMaps sampleAttempt).1 = -EPERM := by
  decide

/-- C12, amended: for an attempt that gets past the early returns, when the
destination is found in the denied trie and the command is found in
`allowed_command_list`, the final `allow_connect` is 0, and `can_access` is 0
exactly when the final `allow_uid`, `allow_gid` and `allow_command` are 0 as
well. -/
theorem override_yields_connect (K : Common) (m : Maps) (x : Attempt)
    (hreach : reaches_evaluation K m x = true) (hden : cidr_denied m x = true)
    (hcmd : command_allowed m x = true) :
    allow_connect m x = 0 ∧
    (can_access m x = 0 ↔ (allow_uid m x = 0 ∧ allow_gid m x = 0 ∧ allow_command m x = 0)) ∧
    (mode_is (config m) K.MODE_MONITOR = false → (socket_connect K m x).1 = can_access m x) := by
  have h1 : allow_connect m x = 0 := by
    rw [allow_connect_of_denied m x hden, hcmd]
    simp
  refine ⟨h1, ?_, socket_connect_fst_of_not_monitor K m x hreach⟩
  rw [can_access_eq_zero_iff]
  simp [h1]

theorem override_yields_connect_witness :
    allow_connect overrideMaps sampleAttempt = 0 ∧
    can_access overrideMaps sampleAttempt = 0 ∧
    (socket_connect sampleCommon overrideMaps sampleAttempt).1 = 0 :=
  have h := override_yields_connect sampleCommon overrideMaps sampleAttempt (by decide)
    (by decide) (by decide)
  ⟨h.1, h.2.1.mpr (by decide), (h.2.2 (by decide)).trans (h.2.1.mpr (by decide))⟩

/-- C13, as stated, fails: the denied trie is empty, the destination lies in an
allowed prefix and no allow-list is active, yet `can_access` is `-EPERM`
because the command is in `denied_command_list`. -/
theorem plain_allow_not_sufficient :
    reaches_evaluation sampleCommon deniedCommandMaps sampleAttempt = true ∧
    deniedCommandMaps.denied_cidr_list = [] ∧
    cidr_allowed deniedCommandMaps sampleAttempt = true ∧
    config deniedCommandMaps = some blockConfig ∧
    can_access deniedCommandMaps sampleAttempt = -EPERM ∧
    (socket_connect sampleCommon deniedCommandMaps sampleAttempt).1 = -EPERM := by
  decide

/-- C13, amended: for an attempt that gets past the early returns, when the
denied trie is empty, the destination lies in a prefix of the allowed trie, the
configuration (if present) has `has_allow_command`, `has_allow_uid` and
`has_allow_gid` equal to 0, and the command, the uid and the gid are in none of
the three denied lists, `can_access` is 0, and 0 is the value returned. -/
theorem plain_network_allow (K : Common) (m : Maps) (x : Attempt)
    (hreach : reaches_evaluation K m x = true)
    (hempty : m.denied_cidr_list = [])
    (hallow : ∃ e ∈ m.allowed_cidr_list,
      e.1.prefixlen ≤ 32 ∧ first_bits_equal e.1.prefixlen e.1.addr x.sin_addr)
    (hflags : ∀ c : bouheki_config, config m = some c →
      c.has_allow_command = 0 ∧ c.has_allow_uid = 0 ∧ c.has_allow_gid = 0)
    (hcmd : command_denied m x = false) (huid : uid_denied m x = false)
    (hgid : gid_denied m x = false) :
    can_access m x = 0 ∧ (socket_connect K m x).1 = 0 := by
  have hden : cidr_denied m x = false := by
    unfold cidr_denied lpm_trie_lookup
    rw [hempty]
    simp [lpm_longest]
  have hal : cidr_allowed m x = true := (lpm_trie_lookup_key_isSome_iff _ x).mpr hallow
  have h1 : allow_connect m x = 0 := by
    rw [allow_connect_of_not_denied m x hden]
    simp [allow_connect_0, hal]
  have h2 : allow_uid m x = 0 := by
    unfold allow_uid allow_uid_0
    cases hc : config m with
    | none => simp [huid, has_allow_uid]
    | some c => simp [huid, has_allow_uid_of_config, (hflags c hc).2.1]
  have h3 : allow_gid m x = 0 := by
    simp [allow_gid, allow_gid_0, hgid, has_allow_gid]
  have h4 : allow_command m x = 0 := by
    unfold allow_command allow_command_0
    cases hc : config m with
    | none => simp [hcmd, has_allow_command]
    | some c => simp [hcmd, has_allow_command_of_config, (hflags c hc).1]
  have hca : can_access m x = 0 := (can_access_eq_zero_iff m x).mpr ⟨h1, h2, h3, h4⟩
  refine ⟨hca, ?_⟩
  rw [socket_connect_of_reaches K m x hreach]
  split <;> simp [hca]

theorem plain_network_allow_witness :
    can_access blockMaps sampleAttempt = 0 ∧
    (socket_connect sampleCommon blockMaps sampleAttempt).1 = 0 :=
  plain_network_allow sampleCommon blockMaps sampleAttempt (by decide) (by decide)
    ⟨({ prefixlen := 24, addr := 0x0a00004d }, 1), by decide, by decide, by decide⟩
    (fun c hc => by
      have h : c = blockConfig := (Option.some.inj hc).symm
      subst h
      decide)
    (by decide) (by decide) (by decide)

/-- C14: for a destination that lies both in a prefix of `denied_cidr_list` and
in a prefix of `allowed_cidr_list`, of whatever lengths, `allow_connect` is 0
before the denied trie is consulted, and afterwards it is `-EPERM` when none of
`allowed_uid_list`, `allowed_gid_list` and `allowed_command_list` holds the
uid, the gid or the command of the task, and 0 when at least one of them
does. -/
theorem cidr_precedence (m : Maps) (x : Attempt)
    (hd : ∃ e ∈ m.denied_cidr_list,
      e.1.prefixlen ≤ 32 ∧ first_bits_equal e.1.prefixlen e.1.addr x.sin_addr)
    (ha : ∃ e ∈ m.allowed_cidr_list,
      e.1.prefixlen ≤ 32 ∧ first_bits_equal e.1.prefixlen e.1.addr x.sin_addr) :
    allow_connect_0 m x = 0 ∧
    (¬ ((∃ e ∈ m.allowed_uid_list, e.1.uid = current_uid x) ∨
        (∃ e ∈ m.allowed_gid_list, e.1.gid = current_gid x) ∨
        (∃ e ∈ m.allowed_command_list, e.1.comm = x.current_comm)) →
      allow_connect m x = -EPERM) ∧
    (((∃ e ∈ m.allowed_uid_list, e.1.uid = current_uid x) ∨
        (∃ e ∈ m.allowed_gid_list, e.1.gid = current_gid x) ∨
        (∃ e ∈ m.allowed_command_list, e.1.comm = x.current_comm)) →
      allow_connect m x = 0) := by
  have hden : cidr_denied m x = true := (lpm_trie_lookup_key_isSome_iff _ x).mpr hd
  have hal : cidr_allowed m x = true := (lpm_trie_lookup_key_isSome_iff _ x).mpr ha
  have hiff := allow_connect_of_denied_iff m x hden
  refine ⟨by simp [allow_connect_0, hal], ?_, hiff.mpr⟩
  intro hnone
  rcases allow_connect_cases m x with h | h
  · exact absurd (hiff.mp h) hnone
  · exact h

theorem cidr_precedence_witness :
    sampleAttempt.sin_addr = 0x0a000005 ∧
    (uid_allowed { precedenceMaps with allowed_uid_list := [({ uid := 1000 }, 1)] }
        sampleAttempt = true ∧
      gid_allowed { precedenceMaps with allowed_gid_list := [({ gid := 100 }, 1)] }
        sampleAttempt = true ∧
      command_allowed
        { precedenceMaps with allowed_command_list := [({ comm := [99, 117, 114, 108] }, 1)] }
        sampleAttempt = true) ∧
    allow_connect_0 precedenceMaps sampleAttempt = 0 ∧
    allow_connect precedenceMaps sampleAttempt = -EPERM ∧
    allow_connect { precedenceMaps with allowed_uid_list := [({ uid := 1000 }, 1)] }
      sampleAttempt = 0 ∧
    allow_connect { precedenceMaps with allowed_gid_list := [({ gid := 100 }, 1)] }
      sampleAttempt = 0 ∧
    allow_connect
      { precedenceMaps with allowed_command_list := [({ comm := [99, 117, 114, 108] }, 1)] }
      sampleAttempt = 0 :=
  have h := cidr_precedence precedenceMaps sampleAttempt
    ⟨({ prefixlen := 8, addr := 0x0a000000 }, 1), by decide, by decide, by decide⟩
    ⟨({ prefixlen := 24, addr := 0x0a000000 }, 1), by decide, by decide, by decide⟩
  have hu := cidr_precedence { precedenceMaps with allowed_uid_list := [({ uid := 1000 }, 1)] }
    sampleAttempt
    ⟨({ prefixlen := 8, addr := 0x0a000000 }, 1), by decide, by decide, by decide⟩
    ⟨({ prefixlen := 24, addr := 0x0a000000 }, 1), by decide, by decide, by decide⟩
  have hg := cidr_precedence { precedenceMaps with allowed_gid_list := [({ gid := 100 }, 1)] }
    sampleAttempt
    ⟨({ prefixlen := 8, addr := 0x0a000000 }, 1), by decide, by decide, by decide⟩
    ⟨({ prefixlen := 24, addr := 0x0a000000 }, 1), by decide, by decide, by decide⟩
  have hc := cidr_precedence
    { precedenceMaps with allowed_command_list := [({ comm := [99, 117, 114, 108] }, 1)] }
    sampleAttempt
    ⟨({ prefixlen := 8, addr := 0x0a000000 }, 1), by decide, by decide, by decide⟩
    ⟨({ prefixlen := 24, addr := 0x0a000000 }, 1), by decide, by decide, by decide⟩
  ⟨rfl, by decide, h.1, h.2.1 (by decide),
    hu.2.2 (Or.inl ⟨({ uid := 1000 }, 1), by decide, by decide⟩),
    hg.2.2 (Or.inr (Or.inl ⟨({ gid := 100 }, 1), by decide, by decide⟩)),
    hc.2.2 (Or.inr (Or.inr ⟨({ comm := [99, 117, 114, 108] }, 1), by decide, by decide⟩))⟩

/-- C15: for every attempt and all maps, the program returns 0 or `-EPERM`. -/
theorem two_valued_result (K : Common) (m : Maps) (x : Attempt) :
    (socket_connect K m x).1 = 0 ∨ (socket_connect K m x).1 = -EPERM := by
  rw [socket_connect_fst]
  split
  · exact Or.inl rfl
  · split
    · exact Or.inl rfl
    · split
      · exact Or.inl rfl
      · split
        · exact Or.inl rfl
        · exact can_access_cases m x

/-- C16: two invocations on maps that hold the same configuration and the same
eight policy maps (their ring buffers may differ), for attempts that agree on
the address family, on whether the destination port is zero, on the destination
address, on the uid, the gid, the command and the container status, return the
same value, whatever the other fields of the attempts are; in particular the
second attempt, made on the maps the first call leaves behind, gets the value
the first call returned. -/
theorem verdict_determinism (K : Common) (m1 m2 : Maps) (x y : Attempt)
    (hsnap : same_snapshot m1 m2)
    (hfam : x.sa_family = y.sa_family)
    (hport : is_destination_port_zero x.sin_port = is_destination_port_zero y.sin_port)
    (haddr : x.sin_addr = y.sin_addr)
    (huid : current_uid x = current_uid y) (hgid : current_gid x = current_gid y)
    (hcomm : x.current_comm = y.current_comm)
    (hcont : x.is_container = y.is_container) :
    (socket_connect K m1 x).1 = (socket_connect K m2 y).1 ∧
    (socket_connect K (socket_connect K m1 x).2 y).1 = (socket_connect K m1 x).1 := by
  have key_fact : ∀ ma mb : Maps, same_snapshot ma mb →
      (socket_connect K ma x).1 = (socket_connect K mb y).1 := by
    intro ma mb hs
    have hcfg : config ma = config mb := by
      simp only [config, hs.1]
    have hout : outside_target K ma x = outside_target K mb y := by
      simp only [outside_target, hcfg, hcont]
    rw [socket_connect_fst, socket_connect_fst, hfam, hport, hout, hcfg,
      can_access_congr_snapshot ma mb x y hs haddr huid hgid hcomm]
  exact ⟨key_fact m1 m2 hsnap,
    (key_fact m1 (socket_connect K m1 x).2 (same_snapshot_socket_connect K m1 x)).symm⟩

theorem verdict_determinism_witness :
    sampleAttempt.sin_port ≠ otherAttempt.sin_port ∧
    sampleAttempt.src_addr4 ≠ otherAttempt.src_addr4 ∧
    sampleAttempt.current_pid_tgid ≠ otherAttempt.current_pid_tgid ∧
    (socket_connect sampleCommon deniedCidrMaps sampleAttempt).2 ≠ deniedCidrMaps ∧
    (socket_connect sampleCommon deniedCidrMaps sampleAttempt).1
      = (socket_connect sampleCommon
          { deniedCidrMaps with audit_events := [report_ipv4_event_ev sampleCommon otherAttempt 9 0 0] }
          otherAttempt).1 ∧
    (socket_connect sampleCommon
        (socket_connect sampleCommon deniedCidrMaps sampleAttempt).2 otherAttempt).1
      = (socket_connect sampleCommon deniedCidrMaps sampleAttempt).1 :=
  have h := verdict_determinism sampleCommon deniedCidrMaps
    { deniedCidrMaps with audit_events := [report_ipv4_event_ev sampleCommon otherAttempt 9 0 0] }
    sampleAttempt otherAttempt (by decide)
    (by decide) (by decide) (by decide) (by decide) (by decide) (by decide) (by decide)
  ⟨by decide, by decide, by decide, by decide, h.1, h.2⟩

/-- C17: after the call, the configuration map, the six hash maps and the two
tries are as before; and, `MODE_BLOCK` and `MODE_MONITOR` being different
enumerators, the ring buffer is as before or has exactly one more record at its
end. -/
theorem read_only_stores (K : Common) (m : Maps) (x : Attempt) :
    (socket_connect K m x).2.bouheki_config = m.bouheki_config ∧
    (socket_connect K m x).2.allowed_command_list = m.allowed_command_list ∧
    (socket_connect K m x).2.denied_command_list = m.denied_command_list ∧
    (socket_connect K m x).2.allowed_uid_list = m.allowed_uid_list ∧
    (socket_connect K m x).2.denied_uid_list = m.denied_uid_list ∧
    (socket_connect K m x).2.allowed_gid_list = m.allowed_gid_list ∧
    (socket_connect K m x).2.denied_gid_list = m.denied_gid_list ∧
    (socket_connect K m x).2.denied_cidr_list = m.denied_cidr_list ∧
    (socket_connect K m x).2.allowed_cidr_list = m.allowed_cidr_list ∧
    (K.MODE_BLOCK ≠ K.MODE_MONITOR →
      (socket_connect K m x).2.audit_events = m.audit_events ∨
      ∃ ev, (socket_connect K m x).2.audit_events = m.audit_events ++ [ev]) := by
  obtain ⟨evs, h, hl⟩ := socket_connect_snd K m x
  rw [h]
  refine ⟨rfl, rfl, rfl, rfl, rfl, rfl, rfl, rfl, rfl, fun hK => ?_⟩
  match evs, hl hK with
  | [], _ => exact Or.inl (by simp)
  | [ev], _ => exact Or.inr ⟨ev, rfl⟩

theorem read_only_stores_witness :
    (socket_connect sampleCommon deniedCidrMaps sampleAttempt).2.audit_events
        = deniedCidrMaps.audit_events ∨
      ∃ ev, (socket_connect sampleCommon deniedCidrMaps sampleAttempt).2.audit_events
        = deniedCidrMaps.audit_events ++ [ev] :=
  (read_only_stores sampleCommon deniedCidrMaps sampleAttempt).2.2.2.2.2.2.2.2.2 (by decide)

/-- C18: the record that `report_ipv4_event` appends has `type = BLOCKED_IPV4`
whatever the action, `operation` and `action` equal to the checkpoint and the
action passed (enumerators below 256, which the casts to `u8` keep), `cgroup`
equal to the cgroup id passed, `pid` equal to the upper 32 bits of the pid/tgid
value, `dst` equal to the destination address, and `dport` equal to the byte
swap `((p & 0xff) << 8) | (p >> 8)` of the 16-bit `sin_port`; when `sin_port`
holds the two bytes of a port number in network order, read as a little-endian
number, `dport` is that port number. -/
theorem audit_record_contents (K : Common) (m : Maps) (x : Attempt) (cg action point : Nat)
    (hcg : cg < 2 ^ 64) (hact : action < 2 ^ 8) (hpt : point < 2 ^ 8)
    (hpid : x.current_pid_tgid < 2 ^ 64) (hport : x.sin_port < 2 ^ 16) :
    ∃ ev : audit_event_ipv4,
      (report_ipv4_event K m x cg action point).audit_events = m.audit_events ++ [ev] ∧
      ev.hdr.type = K.BLOCKED_IPV4 ∧ ev.operation = point ∧ ev.action = action ∧
      ev.hdr.cgroup = cg ∧ ev.hdr.pid = x.current_pid_tgid >>> 32 ∧
      ev.dst = x.sin_addr ∧
      ev.dport = ((x.sin_port &&& 0xff) <<< 8) ||| (x.sin_port >>> 8) ∧
      (∀ port : Nat, port < 2 ^ 16 → x.sin_port = port / 256 + 256 * (port % 256) →
        ev.dport = port) := by
  refine ⟨report_ipv4_event_ev K x cg action point, rfl, rfl, Nat.mod_eq_of_lt hpt,
    Nat.mod_eq_of_lt hact, Nat.mod_eq_of_lt hcg, ?_, rfl, bswap16_of_lt _ hport, ?_⟩
  · show ((x.current_pid_tgid % 2 ^ 64) >>> 32) % 2 ^ 32 = x.current_pid_tgid >>> 32
    rw [Nat.mod_eq_of_lt hpid, Nat.shiftRight_eq_div_pow]
    apply Nat.mod_eq_of_lt
    omega
  · intro port hp hsin
    show bswap16 x.sin_port = port
    have hq : port / 256 < 256 := by omega
    have h1 : (port / 256 + 256 * (port % 256)) % 256 = port / 256 := by
      rw [Nat.add_mul_mod_self_left]
      exact Nat.mod_eq_of_lt hq
    have h2 : (port / 256 + 256 * (port % 256)) / 256 = port % 256 := by
      rw [Nat.add_mul_div_left _ _ (by decide : 0 < 256), Nat.div_eq_of_lt hq]
      omega
    rw [bswap16_eq, hsin, h1, h2]
    omega

theorem audit_record_contents_witness :
    ∃ ev : audit_event_ipv4,
      (report_ipv4_event sampleCommon blockMaps sampleAttempt 7 0 0).audit_events
        = blockMaps.audit_events ++ [ev] ∧
      ev.hdr.type = sampleCommon.BLOCKED_IPV4 ∧ ev.operation = 0 ∧ ev.action = 0 ∧
      ev.hdr.cgroup = 7 ∧ ev.hdr.pid = sampleAttempt.current_pid_tgid >>> 32 ∧
      ev.dst = sampleAttempt.sin_addr ∧
      ev.dport = ((sampleAttempt.sin_port &&& 0xff) <<< 8) ||| (sampleAttempt.sin_port >>> 8) ∧
      (∀ port : Nat, port < 2 ^ 16 → sampleAttempt.sin_port = port / 256 + 256 * (port % 256) →
        ev.dport = port) :=
  audit_record_contents sampleCommon blockMaps sampleAttempt 7 0 0 (by decide) (by decide)
    (by decide) (by decide) (by decide)

/-- C19: for an attempt that gets past the early returns, when the
configuration lookup misses or the mode of the configuration is neither
`MODE_BLOCK` nor `MODE_MONITOR`, the program appends no event and returns
`can_access`, which is 0 when the four final sub-verdicts are 0 and `-EPERM`
otherwise; without a configuration the uid, gid and command sub-verdicts before
the denied lists are 0; and a destination that lies in no prefix of either trie
gets `-EPERM` and no event. -/
theorem silent_verdict (K : Common) (m : Maps) (x : Attempt)
    (hreach : reaches_evaluation K m x = true)
    (hmode : config m = none ∨
      ∃ c : bouheki_config, config m = some c ∧ c.mode ≠ K.MODE_BLOCK ∧ c.mode ≠ K.MODE_MONITOR) :
    socket_connect K m x = (can_access m x, m) ∧
    (can_access m x = 0 ↔
      (allow_connect m x = 0 ∧ allow_uid m x = 0 ∧ allow_gid m x = 0 ∧ allow_command m x = 0)) ∧
    (can_access m x ≠ 0 → can_access m x = -EPERM) ∧
    (config m = none →
      allow_uid_0 m x = 0 ∧ allow_gid_0 m x = 0 ∧ allow_command_0 m x = 0) ∧
    ((¬ ∃ e ∈ m.allowed_cidr_list, first_bits_equal e.1.prefixlen e.1.addr x.sin_addr) →
      (¬ ∃ e ∈ m.denied_cidr_list, first_bits_equal e.1.prefixlen e.1.addr x.sin_addr) →
      socket_connect K m x = (-EPERM, m)) := by
  have hblk : mode_is (config m) K.MODE_BLOCK = false := by
    rcases hmode with h | ⟨c, h, h1, -⟩
    · rw [h]
      rfl
    · rw [mode_is_of_config m c _ h]
      simpa using h1
  have hmon : mode_is (config m) K.MODE_MONITOR = false := by
    rcases hmode with h | ⟨c, h, -, h2⟩
    · rw [h]
      rfl
    · rw [mode_is_of_config m c _ h]
      simpa using h2
  have hsc : socket_connect K m x = (can_access m x, m) := by
    rw [socket_connect_of_reaches K m x hreach]
    simp [hblk, hmon]
  refine ⟨hsc, can_access_eq_zero_iff m x, (can_access_ne_zero_iff m x).mp, ?_, ?_⟩
  · intro hc
    refine ⟨?_, ?_, ?_⟩
    · simp [allow_uid_0, hc, has_allow_uid]
    · simp [allow_gid_0, has_allow_gid]
    · simp [allow_command_0, hc, has_allow_command]
  · intro hna hnd
    rw [hsc, can_access_of_no_cidr_match m x hna hnd]

theorem silent_verdict_witness :
    socket_connect sampleCommon emptyMaps sampleAttempt = (-EPERM, emptyMaps) ∧
    socket_connect sampleCommon { otherModeMaps with allowed_cidr_list := [] } sampleAttempt
      = (-EPERM, { otherModeMaps with allowed_cidr_list := [] }) ∧
    socket_connect sampleCommon otherModeMaps sampleAttempt = (0, otherModeMaps) :=
  ⟨(silent_verdict sampleCommon emptyMaps sampleAttempt (by decide) (Or.inl (by decide))).2.2.2.2
      (by decide) (by decide),
    (silent_verdict sampleCommon { otherModeMaps with allowed_cidr_list := [] } sampleAttempt
      (by decide)
      (Or.inr ⟨{ blockConfig with mode := 7 }, by decide, by decide, by decide⟩)).2.2.2.2
      (by decide) (by decide),
    (silent_verdict sampleCommon otherModeMaps sampleAttempt (by decide)
      (Or.inr ⟨{ blockConfig with mode := 7 }, by decide, by decide, by decide⟩)).1.trans
      (by decide)⟩

/-- C20: when the destination is found in the denied trie, the final
`allow_connect` depends only on the three allow-list lookups, not on the flags
nor on the allowed trie; and `can_access` is not monotone in the denied trie:
with the destination in no allowed prefix, the uid in `allowed_uid_list`, all
flags 0, no identity denied and an empty denied trie, `can_access` is `-EPERM`,
and adding the one prefix 10.0.0.0/8, which covers the destination, to the
denied trie makes it 0. -/
theorem verdict_not_monotone_in_denied_cidr :
    (∀ (m : Maps) (x : Attempt), cidr_denied m x = true →
      (allow_connect m x = 0 ↔
        (uid_allowed m x = true ∨ gid_allowed m x = true ∨ command_allowed m x = true))) ∧
    ∃ (m : Maps) (x : Attempt) (e : ipv4_trie_key × Nat),
      reaches_evaluation sampleCommon m x = true ∧
      (¬ ∃ a ∈ m.allowed_cidr_list, first_bits_equal a.1.prefixlen a.1.addr x.sin_addr) ∧
      uid_allowed m x = true ∧
      config m = some blockConfig ∧
      blockConfig.has_allow_command = 0 ∧ blockConfig.has_allow_uid = 0 ∧
      blockConfig.has_allow_gid = 0 ∧
      command_denied m x = false ∧ uid_denied m x = false ∧ gid_denied m x = false ∧
      m.denied_cidr_list = [] ∧
      can_access m x = -EPERM ∧
      (socket_connect sampleCommon m x).1 = -EPERM ∧
      e.1.prefixlen ≤ 32 ∧ first_bits_equal e.1.prefixlen e.1.addr x.sin_addr ∧
      can_access { m with denied_cidr_list := [e] } x = 0 ∧
      (socket_connect sampleCommon { m with denied_cidr_list := [e] } x).1 = 0 := by
  refine ⟨?_, allowedUidOnlyMaps, sampleAttempt, ({ prefixlen := 8, addr := 0x0a000000 }, 1), ?_⟩
  swap
  · decide
  intro m x hden
  rw [allow_connect_of_denied m x hden]
  cases command_allowed m x <;> cases uid_allowed m x <;> cases gid_allowed m x <;>
    simp [EPERM_ne_zero]

end Bouheki
